import Mathlib

set_option maxRecDepth 4000

/-!
Verification of the yt-downloader API service (`main.py`) against its
natural-language specification.  The definitions below are a shallow
embedding of the relevant parts of the source: pure computations become
Lean functions, the in-memory job tracker becomes an association list,
the filesystem and the external extraction/mirror backends become
explicit inputs (existence predicates and `Except`-valued outcomes).
-/

namespace YtApi

/-! ## Substring matching (Python `kw in s`) -/

/-- Whether `pat` occurs at the start of `hay` (character lists). -/
def starts_with_chars : List Char → List Char → Bool
  | [], _ => true
  | _ :: _, [] => false
  | p :: ps, h :: hs => p == h && starts_with_chars ps hs

/-- Whether `pat` occurs anywhere inside `hay` (character lists);
embeds Python's `pat in hay` substring test. -/
def has_sub (pat : List Char) : List Char → Bool
  | [] => pat.isEmpty
  | h :: hs => starts_with_chars pat (h :: hs) || has_sub pat hs

/-- Python `kw in s` on strings. -/
def contains_kw (s kw : String) : Bool :=
  has_sub kw.toList s.toList

/-- Python `s.lower()` (character-wise lowering). -/
def py_lower (s : String) : String :=
  String.mk (s.toList.map Char.toLower)

/-! ## Search data model (`search_music`, `search_via_invidious`) -/

/-- A raw entry of the local extraction engine's flat search
(`info["entries"]` in `search_music`). -/
structure RawEntry where
  title : Option String
  id : String
  duration : Option Nat
  uploader : Option String
  thumbnails : List (Option String)
deriving DecidableEq, Repr

/-- Normalized search result shape shared by every search backend. -/
structure SearchResult where
  title : Option String
  url : String
  duration : Option Nat
  uploader : Option String
  thumbnail : Option String
deriving DecidableEq, Repr

/-- Title keyword denylist of `search_music`. -/
def title_denylist : List String :=
  ["remix", "cover", "reaction", "ai cover", "parody", "mashup", "sped up", "slowed"]

/-- Uploader keyword denylist of `search_music`. -/
def uploader_denylist : List String :=
  ["lyrics", "clouds", "topic", "mix"]

/-- The title-side rejection test of `search_music`:
`any(x in title for x in [...])` on the lowercased title
(`e.get("title", "").lower()`). -/
def title_blocked (e : RawEntry) : Bool :=
  title_denylist.any fun x => contains_kw (py_lower (e.title.getD "")) x

/-- The uploader-side rejection test of `search_music`:
`any(x in uploader for x in [...])` on the lowercased uploader
(`(e.get("uploader") or "").lower()`). -/
def uploader_blocked (e : RawEntry) : Bool :=
  uploader_denylist.any fun x => contains_kw (py_lower (e.uploader.getD "")) x

/-- The normalized result dict `search_music` appends for a kept entry. -/
def mk_search_result (e : RawEntry) : SearchResult :=
  { title := e.title
    url := "https://www.youtube.com/watch?v=" ++ e.id
    duration := e.duration
    uploader := e.uploader
    thumbnail := if e.thumbnails.isEmpty then none else (e.thumbnails.getLastD none) }

/-- The result-building loop of `search_music`: skips falsy entries,
skips entries hit by either denylist, appends the normalized result
otherwise, in input order. -/
def search_music_results : List (Option RawEntry) → List SearchResult
  | [] => []
  | none :: rest => search_music_results rest
  | some e :: rest =>
    if title_blocked e then search_music_results rest
    else if uploader_blocked e then search_music_results rest
    else mk_search_result e :: search_music_results rest

/-- A raw item of an Invidious search response. -/
structure InvItem where
  title : Option String
  videoId : String
  lengthSeconds : Option Nat
  author : Option String
  videoThumbnails : List (Option String)
deriving DecidableEq, Repr

/-- The normalized result `search_via_invidious` builds for one item:
no denylist is applied on this path. -/
def mk_inv_result (i : InvItem) : SearchResult :=
  { title := i.title
    url := "https://www.youtube.com/watch?v=" ++ i.videoId
    duration := i.lengthSeconds
    uploader := i.author
    thumbnail := i.videoThumbnails.headD none }

/-- The result-building loop of `search_via_invidious`
(`for item in data[:limit]`): plain normalization of the first
`limit` items, with no filtering. -/
def search_via_invidious_results (items : List InvItem) (limit : Nat) : List SearchResult :=
  (items.take limit).map mk_inv_result

/-! ## Audio format selection (`get_stream_url`, `get_stream_url_via_proxy`) -/

/-- One entry of the extraction engine's `info["formats"]` list. -/
structure MediaFormat where
  acodec : Option String
  url : Option String
  abr : Option Nat
deriving DecidableEq, Repr

/-- Python truthiness of `f.get("url")`: present and non-empty. -/
def url_truthy : Option String → Bool
  | none => false
  | some s => !s.isEmpty

/-- The usable-audio filter of `get_stream_url`:
`f.get("acodec") != "none" and f.get("url")`. -/
def usable_audio (f : MediaFormat) : Bool :=
  (f.acodec != some "none") && url_truthy f.url

/-- The sort key of `get_stream_url`: `x.get("abr", 0) or 0`
(missing or null bitrate treated as zero). -/
def abr_key (f : MediaFormat) : Nat :=
  f.abr.getD 0

/-- Stable insertion of `x` into a descending-by-key sorted list:
`x` goes before the first element whose key is not larger, so earlier
input elements win ties.  Together with `sort_desc` this embeds
Python's stable `list.sort(key=..., reverse=True)`. -/
def insert_desc (k : α → Nat) (x : α) : List α → List α
  | [] => [x]
  | y :: ys => if k y ≤ k x then x :: y :: ys else y :: insert_desc k x ys

/-- Stable descending sort by a numeric key (Python
`list.sort(key=..., reverse=True)`, which is stable). -/
def sort_desc (k : α → Nat) : List α → List α
  | [] => []
  | x :: xs => insert_desc k x (sort_desc k xs)

/-- The selection of `get_stream_url` (and `get_stream_url_via_proxy`):
filter usable audio formats, stable-sort by descending bitrate, take
the first (`best = audio_formats[0]`); `none` when no usable format. -/
def get_stream_url_select (formats : List MediaFormat) : Option MediaFormat :=
  let audio_formats := formats.filter usable_audio
  (sort_desc abr_key audio_formats).head?

/-- Modelled from the spec wording of C3, for comparison with the
source selection: the first element in original list order among the
usable entries of maximal bitrate. -/
def first_max_by (k : α → Nat) : List α → Option α
  | [] => none
  | x :: xs =>
    match first_max_by k xs with
    | none => some x
    | some m => if k x < k m then some m else some x

/-! ## Job tracker (`download_status`) and download workflow -/

/-- One entry of the `download_status` dict: the shapes actually
written by `download_audio` and `progress_hook` (constant companion
fields such as the fixed progress strings are omitted). -/
inductive JobEntry
  | starting
  | downloading (progress speed eta : String)
  | processing
  | completed (file : String)
  | error (message : String)
deriving DecidableEq, Repr

/-- Rank of a status in the lifecycle order
`queued(0) → starting → downloading → processing → completed`, with
the terminal `error` above everything. -/
def status_rank : JobEntry → Nat
  | .starting => 1
  | .downloading _ _ _ => 2
  | .processing => 3
  | .completed _ => 4
  | .error _ => 5

/-- The `d["status"]` discriminator of a yt-dlp progress callback. -/
inductive HookStatus
  | downloading
  | finished
  | other
deriving DecidableEq, Repr

/-- Payload of one yt-dlp progress callback. -/
structure HookData where
  status : HookStatus
  percent : String
  speed : String
  eta : String
deriving DecidableEq, Repr

/-- `progress_hook`: writes a `downloading` entry on a downloading
callback, a `processing` entry on a finished callback, nothing
otherwise. -/
def progress_hook (d : HookData) : Option JobEntry :=
  match d.status with
  | .downloading => some (.downloading d.percent d.speed d.eta)
  | .finished => some .processing
  | .other => none

/-- The fixed probe list `possible_extensions` of `download_audio`. -/
def possible_extensions : List String :=
  ["m4a", "webm", "opus", "mp3", "ogg"]

/-- The path `DOWNLOAD_DIR / f"<task_id>.<ext>"` probed by
`download_audio`. -/
def probe_path (task_id ext : String) : String :=
  "downloads/" ++ task_id ++ "." ++ ext

/-- The completion-detection loop of `download_audio`: first probed
path that exists, given the filesystem's existence predicate at that
moment. -/
def find_output_file (file_exists : String → Bool) (task_id : String) : Option String :=
  (possible_extensions.map (probe_path task_id)).find? file_exists

/-- The final tracker write of `download_audio`'s happy path: a
`completed` entry with the found file, or (via the raised
`FileNotFoundError` and the surrounding handler) an `error` entry. -/
def download_finish (file_exists : String → Bool) (task_id : String) : JobEntry :=
  match find_output_file file_exists task_id with
  | some file => .completed file
  | none => .error "File non trovato con nessuna estensione comune"

/-- The full sequence of tracker writes `download_audio` performs for
one task: the initial `starting` entry, one write per progress
callback, then the final entry — an `error` entry carrying the
exception message if the engine call raised, otherwise the
completion-detection result. -/
def download_audio_writes (file_exists : String → Bool) (task_id : String)
    (_audio_format _quality : String) (hooks : List HookData)
    (crashed : Option String) : List JobEntry :=
  .starting :: (hooks.filterMap progress_hook ++
    [match crashed with
     | some msg => .error msg
     | none => download_finish file_exists task_id])

/-! ## Tracker store, status, cleanup, download start -/

/-- The `download_status` dict: an association list keyed by task id. -/
abbrev Store : Type := List (String × JobEntry)

/-- Dict membership / read: `download_status.get(task_id)`. -/
def lookup_task (task_id : String) (s : Store) : Option JobEntry :=
  (s.find? fun kv => kv.1 == task_id).map (·.2)

/-- `del download_status[task_id]`. -/
def erase_task (task_id : String) (s : Store) : Store :=
  s.filter fun kv => kv.1 != task_id

/-- The filesystem as seen by `cleanup_file`: which paths exist, and
whether an `unlink` on a path would succeed. -/
structure FS where
  file_exists : String → Bool
  unlink_ok : String → Bool

/-- Filesystem after a successful `unlink p`. -/
def FS.remove (fs : FS) (p : String) : FS :=
  { file_exists := fun q => q != p && fs.file_exists q
    unlink_ok := fs.unlink_ok }

/-- `cleanup_file`: unknown id is a no-op returning the success
message; a known entry is deleted from the tracker after, for a
`completed` entry whose file still exists, an `unlink` that is NOT
guarded by a handler — a failing `unlink` raises out of the endpoint
before the tracker entry is removed. -/
def cleanup_file (task_id : String) (store : Store) (fs : FS) :
    Except String (Store × FS × String) :=
  match lookup_task task_id store with
  | none => .ok (store, fs, "Cleaned up successfully")
  | some entry =>
    match entry with
    | .completed file =>
      if fs.file_exists file then
        if fs.unlink_ok file then
          .ok (erase_task task_id store, fs.remove file, "Cleaned up successfully")
        else .error "unlink failed"
      else .ok (erase_task task_id store, fs, "Cleaned up successfully")
    | _ => .ok (erase_task task_id store, fs, "Cleaned up successfully")

/-- Body of a `POST /api/download` request. -/
structure DownloadRequest where
  url : String
  format : String
  quality : String
deriving DecidableEq, Repr

/-- Response of `start_download`. -/
structure DownloadResponse where
  task_id : String
  status : String
  message : String
deriving DecidableEq, Repr

/-- `start_download`: generates a task id (passed in here, modelling
`uuid.uuid4()`), schedules the background workflow to run after the
response is sent, and returns a `queued` response.  The tracker store
is not touched before returning. -/
def start_download (store : Store) (task_id : String) (_req : DownloadRequest) :
    Store × DownloadResponse :=
  (store, { task_id := task_id, status := "queued", message := "Download started" })

/-- `get_status`: 404 when the id is absent from the tracker,
otherwise the stored entry. -/
def get_status (task_id : String) (store : Store) : Except Nat JobEntry :=
  match lookup_task task_id store with
  | none => .error 404
  | some e => .ok e

/-! ## Multi-provider fallback chains -/

/-- Normalized output of one stream-resolution provider. -/
structure StreamResult where
  stream_url : String
  title : String
deriving DecidableEq, Repr

/-- One entry of the aggregate error list built by
`get_stream_multi_fallback`. -/
structure MethodError where
  method : String
  error : String
deriving DecidableEq, Repr

/-- The fixed message appended for the cloudflare slot when
`CLOUDFLARE_WORKER_URL` is not set. -/
def cloudflare_not_configured_msg : String :=
  "Not configured (set CLOUDFLARE_WORKER_URL)"

/-- `get_stream_multi_fallback`, over the abstract outcomes of its
four providers: try yt-dlp, invidious, piped in order, returning the
first success annotated with the method and a fallback flag; the
cloudflare provider is invoked only when its worker URL is
configured, but an error entry is appended for it EITHER way; on
total failure raise 503 with the accumulated per-method error list
(messages truncated to 150 characters). -/
def get_stream_multi_fallback
    (ytdlp invidious piped cloudflare : Except String StreamResult)
    (worker_configured : Bool) :
    Except (Nat × List MethodError) (StreamResult × Bool × String) :=
  match ytdlp with
  | .ok r => .ok (r, false, "yt-dlp")
  | .error e1 =>
    match invidious with
    | .ok r => .ok (r, true, "invidious")
    | .error e2 =>
      match piped with
      | .ok r => .ok (r, true, "piped")
      | .error e3 =>
        if worker_configured then
          match cloudflare with
          | .ok r => .ok (r, true, "cloudflare")
          | .error e4 =>
            .error (503,
              [{ method := "yt-dlp", error := e1.take 150 },
               { method := "invidious", error := e2.take 150 },
               { method := "piped", error := e3.take 150 },
               { method := "cloudflare", error := e4.take 150 }])
        else
          .error (503,
            [{ method := "yt-dlp", error := e1.take 150 },
             { method := "invidious", error := e2.take 150 },
             { method := "piped", error := e3.take 150 },
             { method := "cloudflare", error := cloudflare_not_configured_msg }])

/-- Payload of a successful search endpoint. -/
structure SearchPayload where
  results : List SearchResult
  count : Nat
  source : String
deriving DecidableEq, Repr

/-- `search_via_invidious`, over the abstract per-instance responses
(network failure, or status code plus parsed items): iterate the
instance pool in order, skip failures and non-200 responses, return
the normalized (unfiltered) results of the first 200 response — even
when empty — and raise 503 when every instance fails. -/
def search_via_invidious
    (responses : List (Except String (Nat × List InvItem))) (limit : Nat) :
    Except (Nat × String) SearchPayload :=
  match responses with
  | [] => .error (503, "Tutte le istanze Invidious hanno fallito")
  | r :: rest =>
    match r with
    | .error _ => search_via_invidious rest limit
    | .ok (code, items) =>
      if code == 200 then
        .ok { results := search_via_invidious_results items limit
              count := (search_via_invidious_results items limit).length
              source := "invidious" }
      else search_via_invidious rest limit

/-- `search_music`, over the abstract outcome of the local extraction
engine and the Invidious instance responses: on an engine success
with a non-empty filtered result list, return it with source
`yt-dlp`; on an engine exception, or an empty filtered list, fall
back to `search_via_invidious` (whose 503 on total failure
propagates). -/
def search_music
    (ytdlp : Except String (List (Option RawEntry)))
    (inv_responses : List (Except String (Nat × List InvItem)))
    (limit : Nat) : Except (Nat × String) SearchPayload :=
  match ytdlp with
  | .ok entries =>
    let results := search_music_results entries
    if results.isEmpty then search_via_invidious inv_responses limit
    else .ok { results := results, count := results.length, source := "yt-dlp" }
  | .error _ => search_via_invidious inv_responses limit

/-- One raw item of a Piped search response. -/
structure PipedItem where
  itemType : String
  title : Option String
  url : String
  duration : Option Nat
  uploaderName : Option String
  thumbnail : Option String
deriving DecidableEq, Repr

/-- The normalized result `search_multi_fallback` builds for one
stream-typed Piped item. -/
def mk_piped_result (i : PipedItem) : SearchResult :=
  { title := i.title
    url := i.url
    duration := i.duration
    uploader := i.uploaderName
    thumbnail := i.thumbnail }

/-- One Piped-instance attempt inside `search_multi_fallback`:
anything other than a 200 response with a non-empty list of
normalized stream-typed items is swallowed by the inner bare
`except`/`if results:` and yields nothing. -/
def piped_search_attempt (r : Except String (Nat × List PipedItem)) (limit : Nat) :
    Option SearchPayload :=
  match r with
  | .error _ => none
  | .ok (code, items) =>
    if code == 200 then
      let results := ((items.take limit).filter fun i => i.itemType == "stream").map mk_piped_result
      if results.isEmpty then none
      else some { results := results, count := results.length, source := "piped" }
    else none

/-- The Piped instance loop of `search_multi_fallback`: first
successful attempt, if any. -/
def search_multi_piped (responses : List (Except String (Nat × List PipedItem)))
    (limit : Nat) : Option SearchPayload :=
  match responses with
  | [] => none
  | r :: rest =>
    match piped_search_attempt r limit with
    | some p => some p
    | none => search_multi_piped rest limit

/-- `search_multi_fallback`, over the abstract outcomes of its first
two steps (the `search_music` call and the `search_via_invidious`
call) and the Piped instance responses: first success wins; on total
failure raise 503 with the accumulated error strings — to which the
Piped step never contributes, because its per-instance failures are
swallowed inside the loop. -/
def search_multi_fallback
    (step_ytdlp step_invidious : Except String SearchPayload)
    (piped_responses : List (Except String (Nat × List PipedItem)))
    (limit : Nat) : Except (Nat × List String) SearchPayload :=
  match step_ytdlp with
  | .ok p => .ok p
  | .error e1 =>
    match step_invidious with
    | .ok p => .ok p
    | .error e2 =>
      match search_multi_piped piped_responses limit with
      | some p => .ok p
      | none =>
        .error (503, ["yt-dlp: " ++ e1.take 100, "invidious: " ++ e2.take 100])

/-! ## Download options (`get_base_ydl_opts` + `download_audio`) -/

/-- The yt-dlp options `download_audio` passes to the engine (the
fields that vary; constant header/extractor options omitted). -/
structure YdlDownloadOpts where
  format : String
  outtmpl : String
  cookiefile : Option String
  nocheckcertificate : Bool
deriving DecidableEq, Repr

/-- The options dict built by `get_base_ydl_opts` plus the update in
`download_audio`.  The request's `audio_format` and `quality`
parameters are accepted but never used: the postprocessor block that
would consume them is commented out in the source. -/
def download_ydl_opts (cookies_present : Bool) (task_id : String)
    (_audio_format _quality : String) : YdlDownloadOpts :=
  { format := "bestaudio[ext=m4a]/bestaudio[ext=webm]/bestaudio/best"
    outtmpl := "downloads/" ++ task_id ++ ".%(ext)s"
    cookiefile := if cookies_present then some "cookies.txt" else none
    nocheckcertificate := true }

/-! ## Auxiliary predicates used in claim statements -/

/-- Whether one Invidious instance attempt of `search_via_invidious`
fails (exception, or non-200 status). -/
def inv_attempt_fails (r : Except String (Nat × List InvItem)) : Bool :=
  match r with
  | .error _ => true
  | .ok (code, _) => code != 200

/-- Whether the yt-dlp branch of `search_music` produces nothing to
return: an exception, or a filtered result list that is empty. -/
def ytdlp_search_yields_nothing (y : Except String (List (Option RawEntry))) : Bool :=
  match y with
  | .error _ => true
  | .ok entries => (search_music_results entries).isEmpty

/-- The denylist test of C4, on a raw yt-dlp entry. -/
def entry_blocked (e : RawEntry) : Bool :=
  title_blocked e || uploader_blocked e

/-! ## Helper lemmas -/

theorem insert_desc_head (k : α → Nat) (x : α) (l : List α) :
    (insert_desc k x l).head? =
      some (match l with
            | [] => x
            | y :: _ => if k y ≤ k x then x else y) := by
  cases l with
  | nil => rfl
  | cons y ys =>
    simp only [insert_desc]
    by_cases h : k y ≤ k x <;> simp [h]

theorem sort_desc_head (k : α → Nat) (l : List α) :
    (sort_desc k l).head? = first_max_by k l := by
  induction l with
  | nil => rfl
  | cons x xs ih =>
    rw [sort_desc, insert_desc_head, first_max_by]
    cases hs : sort_desc k xs with
    | nil =>
      rw [hs] at ih
      simp only [List.head?] at ih
      rw [← ih]
    | cons y ys =>
      rw [hs] at ih
      simp only [List.head?] at ih
      rw [← ih]
      by_cases h : k y ≤ k x
      · simp [h, Nat.not_lt.mpr h]
      · simp [h, Nat.lt_of_not_le h]

theorem first_max_by_mem_max (k : α → Nat) :
    ∀ (l : List α) (m : α), first_max_by k l = some m →
      m ∈ l ∧ ∀ x ∈ l, k x ≤ k m := by
  intro l
  induction l with
  | nil => intro m h; cases h
  | cons x xs ih =>
    intro m h
    rw [first_max_by] at h
    cases hx : first_max_by k xs with
    | none =>
      rw [hx] at h
      cases h
      refine ⟨List.mem_cons_self _ _, ?_⟩
      intro z hz
      rcases List.mem_cons.mp hz with rfl | hz'
      · exact Nat.le_refl _
      · cases xs with
        | nil => cases hz'
        | cons a as =>
          rw [first_max_by] at hx
          cases hmax : first_max_by k as
          · rw [hmax] at hx
            cases hx
          · rw [hmax] at hx
            dsimp only at hx
            split at hx
            · cases hx
            · cases hx
    | some w =>
      rw [hx] at h
      dsimp only at h
      obtain ⟨hw_mem, hw_max⟩ := ih w hx
      by_cases hlt : k x < k w
      · rw [if_pos hlt] at h; cases h
        exact ⟨List.mem_cons_of_mem _ hw_mem, by
          intro z hz
          rcases List.mem_cons.mp hz with rfl | hz'
          · exact Nat.le_of_lt hlt
          · exact hw_max z hz'⟩
      · rw [if_neg hlt] at h; cases h
        refine ⟨List.mem_cons_self _ _, ?_⟩
        intro z hz
        rcases List.mem_cons.mp hz with rfl | hz'
        · exact Nat.le_refl _
        · exact Nat.le_trans (hw_max z hz') (Nat.not_lt.mp hlt)

theorem search_music_results_eq_filter (entries : List (Option RawEntry)) :
    search_music_results entries =
      ((entries.filterMap id).filter fun e => !entry_blocked e).map mk_search_result := by
  induction entries with
  | nil => rfl
  | cons o rest ih =>
    cases o with
    | none => simpa [search_music_results] using ih
    | some e =>
      by_cases ht : title_blocked e
      · simp [search_music_results, ht, entry_blocked, ih]
      · by_cases hu : uploader_blocked e
        · simp [search_music_results, ht, hu, entry_blocked, ih]
        · simp [search_music_results, ht, hu, entry_blocked, ih]

theorem lookup_task_erase (task_id : String) (s : Store) :
    lookup_task task_id (erase_task task_id s) = none := by
  induction s with
  | nil => rfl
  | cons kv rest ih =>
    unfold erase_task lookup_task at *
    by_cases h : kv.1 == task_id
    · have hne : (kv.1 != task_id) = false := by simp_all
      simp only [List.filter_cons, hne]
      exact ih
    · have hne : (kv.1 != task_id) = true := by simp_all
      simp only [List.filter_cons, hne, if_true, List.find?_cons, h]
      exact ih

theorem find?_some_split {p : α → Bool} :
    ∀ {l : List α} {a : α}, l.find? p = some a →
      p a = true ∧ ∃ l1 l2, l = l1 ++ a :: l2 ∧ ∀ x ∈ l1, p x = false := by
  intro l
  induction l with
  | nil => intro a h; cases h
  | cons x xs ih =>
    intro a h
    rw [List.find?_cons] at h
    cases hp : p x with
    | true =>
      rw [hp] at h
      dsimp only at h
      cases h
      exact ⟨hp, [], xs, rfl, by intro z hz; cases hz⟩
    | false =>
      rw [hp] at h
      dsimp only at h
      obtain ⟨ha, l1, l2, hsplit, hfalse⟩ := ih h
      refine ⟨ha, x :: l1, l2, by rw [hsplit]; rfl, ?_⟩
      intro z hz
      rcases List.mem_cons.mp hz with rfl | hz'
      · exact hp
      · exact hfalse z hz'

theorem pairwise_filterMap_of {R : α → α → Prop} {S : β → β → Prop} (f : α → Option β)
    (H : ∀ a b, R a b → ∀ x, f a = some x → ∀ y, f b = some y → S x y) :
    ∀ {l : List α}, l.Pairwise R → (l.filterMap f).Pairwise S := by
  intro l hl
  induction hl with
  | nil => simp
  | @cons a l' hhead _ ih =>
    rw [List.filterMap_cons]
    cases hf : f a with
    | none => exact ih
    | some b =>
      refine List.Pairwise.cons ?_ ih
      intro y hy
      obtain ⟨c, hc, hfc⟩ := List.mem_filterMap.mp hy
      exact H a c (hhead c hc) b hf y hfc

theorem chain'_append_singleton {R : α → α → Prop} (b : α) :
    ∀ {l : List α}, l.Chain' R → (∀ x ∈ l, R x b) → (l ++ [b]).Chain' R := by
  intro l
  induction l with
  | nil => intro _ _; simp
  | cons x xs ih =>
    intro hl hx
    rw [List.cons_append, List.chain'_cons']
    refine ⟨?_, ih hl.tail (fun z hz => hx z (List.mem_cons_of_mem _ hz))⟩
    intro y hy
    cases xs with
    | nil =>
      simp only [List.nil_append, List.head?] at hy
      cases hy
      exact hx x (List.mem_cons_self _ _)
    | cons z zs =>
      simp only [List.cons_append, List.head?] at hy
      cases hy
      exact (List.chain'_cons.mp hl).1

theorem one_le_status_rank (e : JobEntry) : 1 ≤ status_rank e := by
  cases e <;> simp [status_rank]

theorem progress_hook_rank {d : HookData} {x : JobEntry}
    (h : progress_hook d = some x) :
    2 ≤ status_rank x ∧ status_rank x ≤ 3 := by
  unfold progress_hook at h
  cases hs : d.status <;> rw [hs] at h
  · cases h; simp [status_rank]
  · cases h; simp [status_rank]
  · cases h

theorem search_multi_piped_none (limit : Nat) :
    ∀ (rs : List (Except String (Nat × List PipedItem))),
      (∀ r ∈ rs, piped_search_attempt r limit = none) →
      search_multi_piped rs limit = none := by
  intro rs
  induction rs with
  | nil => intro _; rfl
  | cons r rest ih =>
    intro h
    rw [search_multi_piped, h r (List.mem_cons_self _ _)]
    exact ih fun x hx => h x (List.mem_cons_of_mem _ hx)

theorem search_via_invidious_all_fail (limit : Nat) :
    ∀ (rs : List (Except String (Nat × List InvItem))),
      (∀ r ∈ rs, inv_attempt_fails r = true) →
      search_via_invidious rs limit =
        .error (503, "Tutte le istanze Invidious hanno fallito") := by
  intro rs
  induction rs with
  | nil => intro _; rfl
  | cons r rest ih =>
    intro h
    have hr := h r (List.mem_cons_self _ _)
    have hrest := ih fun x hx => h x (List.mem_cons_of_mem _ hx)
    cases r with
    | error e => rw [search_via_invidious]; exact hrest
    | ok v =>
      obtain ⟨code, items⟩ := v
      unfold inv_attempt_fails at hr
      simp only [bne_iff_ne, ne_eq, decide_eq_true_eq] at hr
      rw [search_via_invidious]
      have : (code == 200) = false := by simpa using hr
      rw [this]
      exact hrest

/-! ## Claims -/

/-- C3: for every format list, the stream adapter selects exactly the
first element, in original list order, among the usable audio entries
(audio codec not "none", direct URL present) of maximal audio bitrate
(missing bitrate treated as zero) — i.e. the head of the stable
descending-bitrate sort equals the earliest maximal usable entry, and
that entry dominates every usable entry's bitrate. -/
theorem stream_format_selection_spec (formats : List MediaFormat) :
    get_stream_url_select formats = first_max_by abr_key (formats.filter usable_audio) ∧
    ∀ m, first_max_by abr_key (formats.filter usable_audio) = some m →
      m ∈ formats.filter usable_audio ∧
      ∀ f ∈ formats.filter usable_audio, abr_key f ≤ abr_key m := by
  refine ⟨sort_desc_head abr_key _, ?_⟩
  intro m hm
  exact first_max_by_mem_max abr_key _ m hm

/-- A usable low-bitrate audio format, for the C3 witness. -/
def c3_fmt_low : MediaFormat :=
  { acodec := some "mp4a.40.2", url := some "http://cdn/a", abr := some 128 }

/-- A usable high-bitrate audio format, for the C3 witness. -/
def c3_fmt_hi : MediaFormat :=
  { acodec := some "opus", url := some "http://cdn/b", abr := some 160 }

/-- A video-only format (audio codec "none"), for the C3 witness. -/
def c3_fmt_video : MediaFormat :=
  { acodec := some "none", url := some "http://cdn/c", abr := none }

/-- Witness for C3 at a concrete format list: the highest-bitrate
usable entry is selected and dominates a lower one. -/
theorem stream_format_selection_spec_witness :
    get_stream_url_select [c3_fmt_video, c3_fmt_low, c3_fmt_hi] =
      first_max_by abr_key ([c3_fmt_video, c3_fmt_low, c3_fmt_hi].filter usable_audio) ∧
    c3_fmt_hi ∈ [c3_fmt_video, c3_fmt_low, c3_fmt_hi].filter usable_audio ∧
    abr_key c3_fmt_low ≤ abr_key c3_fmt_hi := by
  have h := stream_format_selection_spec [c3_fmt_video, c3_fmt_low, c3_fmt_hi]
  have h2 := h.2 c3_fmt_hi (by decide)
  exact ⟨h.1, h2.1, h2.2 c3_fmt_low (by decide)⟩

/-- C4 (amended): the yt-dlp search path's filtering is the
deterministic, order-preserving filter that drops exactly the
non-falsy entries whose lowercased title contains a title-denylist
keyword or whose lowercased uploader contains an uploader-denylist
keyword; the Invidious search path, by contrast, returns its first
`limit` items normalized with no filtering at all. -/
theorem search_filtering_amended (entries : List (Option RawEntry))
    (items : List InvItem) (limit : Nat) :
    search_music_results entries =
      ((entries.filterMap id).filter fun e => !entry_blocked e).map mk_search_result ∧
    search_via_invidious_results items limit = (items.take limit).map mk_inv_result :=
  ⟨search_music_results_eq_filter entries, rfl⟩

/-- A raw Invidious item whose title carries the denylisted keyword
"remix", for the C4 counterexample. -/
def c4_remix_item : InvItem :=
  { title := some "Song Title (Remix)", videoId := "abc", lengthSeconds := some 180,
    author := some "Artist", videoThumbnails := [] }

/-- The same content as a yt-dlp raw entry, for the C4
counterexample. -/
def c4_remix_entry : RawEntry :=
  { title := some "Song Title (Remix)", id := "abc", duration := some 180,
    uploader := some "Artist", thumbnails := [] }

/-- C4 counterexample: the Invidious search backend returns a
denylist-matching entry unfiltered — the same entry the yt-dlp path
would drop — so the denylist filtering is NOT applied to the
normalized output of every backend. -/
theorem search_filtering_cx :
    search_via_invidious_results [c4_remix_item] 10 =
      [{ title := some "Song Title (Remix)", url := "https://www.youtube.com/watch?v=abc",
         duration := some 180, uploader := some "Artist", thumbnail := none }] ∧
    title_blocked c4_remix_entry = true ∧
    search_music_results [some c4_remix_entry] = [] := by
  refine ⟨rfl, by decide, by decide⟩

/-- C10: the `format` and `quality` fields of a download request
never influence the engine options, the workflow's tracker writes, or
the start response: two requests identical except in those fields
behave identically. -/
theorem format_quality_noninterference (cookies : Bool) (store : Store)
    (task_id url f1 q1 f2 q2 : String) (file_exists : String → Bool)
    (hooks : List HookData) (crashed : Option String) :
    download_ydl_opts cookies task_id f1 q1 = download_ydl_opts cookies task_id f2 q2 ∧
    download_audio_writes file_exists task_id f1 q1 hooks crashed =
      download_audio_writes file_exists task_id f2 q2 hooks crashed ∧
    start_download store task_id { url := url, format := f1, quality := q1 } =
      start_download store task_id { url := url, format := f2, quality := q2 } :=
  ⟨rfl, rfl, rfl⟩

/-- C1 counterexample: a download-start response reports status
"queued", yet an immediate status lookup for the fresh task id
returns 404, because `start_download` inserts nothing into the
tracker before returning. -/
theorem start_download_immediate_status_cx :
    (start_download [] "abc"
      { url := "https://example.com/watch?v=abc", format := "mp3", quality := "192" }).2.status
        = "queued" ∧
    get_status "abc"
      (start_download [] "abc"
        { url := "https://example.com/watch?v=abc", format := "mp3", quality := "192" }).1
        = .error 404 :=
  ⟨rfl, rfl⟩

/-- C1 (amended): `start_download` generates a fresh task id and
returns a response with status "queued", but inserts no tracker
entry before returning — the tracker is left unchanged, so an
immediate status lookup for a fresh id returns 404; the first tracker
entry is written later by the background workflow, with status
`starting`. -/
theorem start_download_amended (store : Store) (task_id : String) (req : DownloadRequest)
    (file_exists : String → Bool) (af q : String) (hooks : List HookData)
    (crashed : Option String) (h : lookup_task task_id store = none) :
    (start_download store task_id req).1 = store ∧
    (start_download store task_id req).2.status = "queued" ∧
    get_status task_id (start_download store task_id req).1 = .error 404 ∧
    (download_audio_writes file_exists task_id af q hooks crashed).head? =
      some .starting := by
  refine ⟨rfl, rfl, ?_, rfl⟩
  unfold get_status start_download
  rw [h]

/-- Witness for C1 at a concrete fresh id and empty tracker. -/
theorem start_download_amended_witness :
    lookup_task "t1" ([] : Store) = none ∧
    ((start_download [] "t1" { url := "u", format := "mp3", quality := "192" }).1
        = ([] : Store) ∧
     (start_download [] "t1" { url := "u", format := "mp3", quality := "192" }).2.status
        = "queued" ∧
     get_status "t1"
        (start_download [] "t1" { url := "u", format := "mp3", quality := "192" }).1
        = .error 404 ∧
     (download_audio_writes (fun _ => false) "t1" "mp3" "192" [] none).head? =
        some .starting) :=
  ⟨rfl, start_download_amended [] "t1" _ (fun _ => false) "mp3" "192" [] none rfl⟩

theorem final_write_rank (file_exists : String → Bool) (task_id : String)
    (crashed : Option String) :
    4 ≤ status_rank (match crashed with
      | some msg => JobEntry.error msg
      | none => download_finish file_exists task_id) := by
  cases crashed with
  | some msg => simp [status_rank]
  | none =>
    unfold download_finish
    cases find_output_file file_exists task_id <;> simp [status_rank]

/-- C5: the sequence of status values `download_audio` writes into
the tracker for one job never moves backward in the lifecycle order
(with the terminal `error` above every state), provided the engine's
progress callbacks never report `downloading` after `finished` — as
is the case for the single-file download this configuration
requests. -/
theorem job_status_monotone (file_exists : String → Bool) (task_id af q : String)
    (hooks : List HookData) (crashed : Option String)
    (h : hooks.Pairwise fun a b => ¬(a.status = .finished ∧ b.status = .downloading)) :
    (download_audio_writes file_exists task_id af q hooks crashed).Chain'
      fun a b => status_rank a ≤ status_rank b := by
  have hpair : (hooks.filterMap progress_hook).Pairwise
      (fun x y => status_rank x ≤ status_rank y) := by
    refine pairwise_filterMap_of progress_hook ?_ h
    intro a b hab x hx y hy
    unfold progress_hook at hx hy
    cases ha : a.status <;> rw [ha] at hx
    · cases hx
      cases hb : b.status <;> rw [hb] at hy
      · cases hy; simp [status_rank]
      · cases hy; simp [status_rank]
      · cases hy
    · cases hx
      cases hb : b.status <;> rw [hb] at hy
      · exact absurd ⟨ha, hb⟩ hab
      · cases hy; simp [status_rank]
      · cases hy
    · cases hx
  unfold download_audio_writes
  rw [List.chain'_cons']
  constructor
  · intro y _
    have h1 : status_rank JobEntry.starting = 1 := rfl
    rw [h1]
    exact one_le_status_rank y
  · refine chain'_append_singleton _ hpair.chain' ?_
    intro x hx
    obtain ⟨d, _, hfd⟩ := List.mem_filterMap.mp hx
    exact Nat.le_trans (progress_hook_rank hfd).2
      (Nat.le_trans (by norm_num) (final_write_rank file_exists task_id crashed))

/-- Concrete hook sequence for the C5 witness. -/
def c5_hooks : List HookData :=
  [{ status := .downloading, percent := "10.0%", speed := "1MiB/s", eta := "05s" },
   { status := .downloading, percent := "90.0%", speed := "1MiB/s", eta := "01s" },
   { status := .finished, percent := "100%", speed := "", eta := "" }]

/-- Concrete filesystem for the C5 witness. -/
def c5_fs : String → Bool := fun p => p == "downloads/t.webm"

/-- Witness for C5 at a concrete hook sequence and filesystem. -/
theorem job_status_monotone_witness :
    c5_hooks.Pairwise (fun a b => ¬(a.status = .finished ∧ b.status = .downloading)) ∧
    (download_audio_writes c5_fs "t" "mp3" "192" c5_hooks none).Chain'
      (fun a b => status_rank a ≤ status_rank b) :=
  ⟨by decide, job_status_monotone c5_fs "t" "mp3" "192" c5_hooks none (by decide)⟩

/-- C6: whenever `download_audio` transitions a job to `completed`,
the recorded path existed at that moment and is the first existing
path in the fixed probe order; and when no probed path exists the job
transitions to `error` instead. -/
theorem completed_file_existed (file_exists : String → Bool) (task_id : String) :
    (∀ f, download_finish file_exists task_id = .completed f →
      file_exists f = true ∧
      ∃ l1 l2, possible_extensions.map (probe_path task_id) = l1 ++ f :: l2 ∧
        ∀ q ∈ l1, file_exists q = false) ∧
    ((∀ e ∈ possible_extensions, file_exists (probe_path task_id e) = false) →
      ∃ msg, download_finish file_exists task_id = .error msg) := by
  constructor
  · intro f hf
    unfold download_finish at hf
    cases hfind : find_output_file file_exists task_id with
    | none => rw [hfind] at hf; cases hf
    | some g =>
      rw [hfind] at hf
      dsimp only at hf
      cases hf
      unfold find_output_file at hfind
      exact (find?_some_split hfind).imp_right fun hsplit => hsplit
  · intro hall
    unfold download_finish
    cases hfind : find_output_file file_exists task_id with
    | none => exact ⟨_, rfl⟩
    | some g =>
      unfold find_output_file at hfind
      obtain ⟨hg, l1, l2, hsplit, _⟩ := find?_some_split hfind
      have hmem : g ∈ possible_extensions.map (probe_path task_id) := by
        rw [hsplit]; simp
      obtain ⟨e, he, rfl⟩ := List.mem_map.mp hmem
      rw [hall e he] at hg
      cases hg

/-- Concrete filesystem for the C6 witness. -/
def c6_fs : String → Bool := fun p => p == "downloads/t.webm"

/-- Witness for C6 at a concrete filesystem where only the `webm`
probe exists. -/
theorem completed_file_existed_witness :
    c6_fs "downloads/t.webm" = true ∧
    download_finish c6_fs "t" = .completed "downloads/t.webm" :=
  ⟨((completed_file_existed c6_fs "t").1 "downloads/t.webm" (by decide)).1, by decide⟩

/-- Tracker with a completed job whose backing file cannot be
unlinked, for the C7 counterexample. -/
def c7_cx_store : Store := [("t", .completed "downloads/t.m4a")]

/-- Filesystem where the backing file exists but `unlink` fails, for
the C7 counterexample. -/
def c7_cx_fs : FS :=
  { file_exists := fun p => p == "downloads/t.m4a", unlink_ok := fun _ => false }

/-- C7 counterexample: when the backing file's `unlink` fails, the
cleanup call raises instead of returning success, and — since a
raising call leaves the tracker and filesystem unchanged — the
repeated second call raises identically, so cleanup-twice is not
unconditionally safe. -/
theorem cleanup_idempotent_cx :
    cleanup_file "t" c7_cx_store c7_cx_fs = .error "unlink failed" := by
  rfl

/-- C7 (amended): when a cleanup call returns success, the task id is
no longer in the tracker, so a second call (like any call with an
unknown id) is a no-op that leaves tracker and filesystem unchanged,
never raises, and returns success; only a first call that itself
raised (file-deletion failure) can make the repeat raise again. -/
theorem cleanup_idempotent_amended (task_id : String) (store s1 : Store) (fs f1 : FS)
    (m : String) (h : cleanup_file task_id store fs = .ok (s1, f1, m)) :
    lookup_task task_id s1 = none ∧
    cleanup_file task_id s1 f1 = .ok (s1, f1, "Cleaned up successfully") := by
  have hnone : lookup_task task_id s1 = none := by
    unfold cleanup_file at h
    cases hl : lookup_task task_id store with
    | none =>
      rw [hl] at h
      dsimp only at h
      cases h
      exact hl
    | some entry =>
      rw [hl] at h
      cases entry with
      | completed file =>
        dsimp only at h
        cases he : fs.file_exists file with
        | true =>
          rw [he, if_pos rfl] at h
          cases hu : fs.unlink_ok file with
          | true =>
            rw [hu, if_pos rfl] at h
            cases h
            exact lookup_task_erase _ _
          | false =>
            rw [hu, if_neg (by simp)] at h
            cases h
        | false =>
          rw [he, if_neg (by simp)] at h
          cases h
          exact lookup_task_erase _ _
      | starting => dsimp only at h; cases h; exact lookup_task_erase _ _
      | downloading p sp e => dsimp only at h; cases h; exact lookup_task_erase _ _
      | processing => dsimp only at h; cases h; exact lookup_task_erase _ _
      | error msg => dsimp only at h; cases h; exact lookup_task_erase _ _
  refine ⟨hnone, ?_⟩
  unfold cleanup_file
  rw [hnone]

/-- Tracker state for the C7 witness. -/
def c7_store : Store := [("t", .starting)]

/-- Filesystem for the C7 witness. -/
def c7_fs : FS := { file_exists := fun _ => false, unlink_ok := fun _ => true }

/-- Witness for C7: after a successful cleanup of a known id, the id
is gone and the second call is a success-returning no-op. -/
theorem cleanup_idempotent_amended_witness :
    lookup_task "t" (erase_task "t" c7_store) = none ∧
    cleanup_file "t" (erase_task "t" c7_store) c7_fs =
      .ok (erase_task "t" c7_store, c7_fs, "Cleaned up successfully") :=
  cleanup_idempotent_amended "t" c7_store (erase_task "t" c7_store) c7_fs c7_fs
    "Cleaned up successfully" rfl

/-- Tracker with a completed job, for the C8 counterexample. -/
def c8_cx_store : Store := [("u", .completed "downloads/u.webm")]

/-- Filesystem where the completed job's file exists but `unlink`
fails, for the C8 counterexample. -/
def c8_cx_fs : FS :=
  { file_exists := fun p => p == "downloads/u.webm", unlink_ok := fun _ => false }

/-- C8 counterexample: for a completed job whose file deletion fails,
`cleanup_file` raises instead of tolerating the failure silently; the
tracker entry is not removed and no success is returned. -/
theorem cleanup_completed_cx :
    cleanup_file "u" c8_cx_store c8_cx_fs = .error "unlink failed" := by
  rfl

/-- C8 (amended): for a completed job, cleanup removes the tracker
entry and deletes the backing file when the deletion succeeds, and a
file that is already absent is tolerated silently (entry still
removed, success returned); but a failure of the deletion call itself
propagates: the operation raises and the entry is not removed. -/
theorem cleanup_completed_amended (task_id file : String) (store : Store) (fs : FS)
    (h : lookup_task task_id store = some (.completed file)) :
    cleanup_file task_id store fs =
      if fs.file_exists file then
        if fs.unlink_ok file then
          .ok (erase_task task_id store, fs.remove file, "Cleaned up successfully")
        else .error "unlink failed"
      else .ok (erase_task task_id store, fs, "Cleaned up successfully") := by
  unfold cleanup_file
  rw [h]

/-- Tracker for the C8 witness. -/
def c8_store : Store := [("t", .completed "downloads/t.m4a")]

/-- Filesystem for the C8 witness (file exists, unlink succeeds). -/
def c8_fs : FS :=
  { file_exists := fun p => p == "downloads/t.m4a", unlink_ok := fun _ => true }

/-- Witness for C8 at a concrete completed job. -/
theorem cleanup_completed_amended_witness :
    cleanup_file "t" c8_store c8_fs =
      if c8_fs.file_exists "downloads/t.m4a" then
        if c8_fs.unlink_ok "downloads/t.m4a" then
          .ok (erase_task "t" c8_store, c8_fs.remove "downloads/t.m4a",
            "Cleaned up successfully")
        else .error "unlink failed"
      else .ok (erase_task "t" c8_store, c8_fs, "Cleaned up successfully") :=
  cleanup_completed_amended "t" "downloads/t.m4a" c8_store c8_fs rfl

/-- C9 counterexample: when the yt-dlp search raises and every
Invidious instance fails, the search endpoint fails with HTTP 503,
not 400. -/
theorem search_total_failure_cx :
    search_music (.error "blocked") [.error "connection refused"] 10 =
      .error (503, "Tutte le istanze Invidious hanno fallito") ∧
    (503 : Nat) ≠ 400 :=
  ⟨rfl, by decide⟩

/-- C9 (amended): whenever the yt-dlp branch of the search yields
nothing (exception, or empty filtered results) and every Invidious
instance attempt fails, the search endpoint fails with HTTP status
503. -/
theorem search_total_failure_503
    (ytdlp : Except String (List (Option RawEntry)))
    (inv_responses : List (Except String (Nat × List InvItem))) (limit : Nat)
    (h1 : ytdlp_search_yields_nothing ytdlp = true)
    (h2 : ∀ r ∈ inv_responses, inv_attempt_fails r = true) :
    search_music ytdlp inv_responses limit =
      .error (503, "Tutte le istanze Invidious hanno fallito") := by
  have hinv := search_via_invidious_all_fail limit inv_responses h2
  cases ytdlp with
  | error e => rw [search_music]; exact hinv
  | ok entries =>
    unfold ytdlp_search_yields_nothing at h1
    rw [search_music]
    rw [if_pos h1]
    exact hinv

/-- A denylist-hit raw entry making the yt-dlp search yield nothing,
for the C9 witness. -/
def c9_blocked_entry : RawEntry :=
  { title := some "Song (Sped Up)", id := "xyz", duration := some 120,
    uploader := some "Someone", thumbnails := [] }

/-- Witness for C9 at concrete failing backends. -/
theorem search_total_failure_503_witness :
    ytdlp_search_yields_nothing (.ok [some c9_blocked_entry]) = true ∧
    search_music (.ok [some c9_blocked_entry]) [.ok (500, []), .error "timeout"] 10 =
      .error (503, "Tutte le istanze Invidious hanno fallito") :=
  ⟨by decide,
   search_total_failure_503 (.ok [some c9_blocked_entry]) [.ok (500, []), .error "timeout"]
     10 (by decide) (by decide)⟩

/-- C2 counterexample: with every attempted provider failing and the
cloudflare worker NOT configured, the aggregate error still carries a
cloudflare entry — the unconfigured provider is skipped but
contributes an entry, so the list is not exactly one entry per
attempted provider. -/
theorem multi_fallback_aggregate_cx :
    get_stream_multi_fallback (.error "a") (.error "b") (.error "c") (.error "d") false =
      .error (503,
        [{ method := "yt-dlp", error := "a" },
         { method := "invidious", error := "b" },
         { method := "piped", error := "c" },
         { method := "cloudflare", error := cloudflare_not_configured_msg }]) ∧
    [{ method := "yt-dlp", error := "a" },
     { method := "invidious", error := "b" },
     { method := "piped", error := "c" },
     ({ method := "cloudflare", error := cloudflare_not_configured_msg } : MethodError)].map
        MethodError.method ≠ ["yt-dlp", "invidious", "piped"] := by
  constructor
  · rfl
  · decide

/-- C2 (amended): when every provider in the stream multi-fallback
chain fails, the aggregate 503 error lists one entry per provider in
the fixed order yt-dlp, invidious, piped, cloudflare — the optional
cloudflare provider contributes an entry even when unconfigured (and
hence never attempted); and in the search multi-fallback chain the
aggregate error carries only the yt-dlp and invidious entries, the
attempted piped step contributing none because its per-instance
failures are swallowed inside its loop. -/
theorem multi_fallback_aggregate_amended (e1 e2 e3 e4 s1 s2 : String) (wc : Bool)
    (piped_responses : List (Except String (Nat × List PipedItem))) (limit : Nat)
    (hp : ∀ r ∈ piped_responses, piped_search_attempt r limit = none) :
    get_stream_multi_fallback (.error e1) (.error e2) (.error e3) (.error e4) wc =
      .error (503,
        [{ method := "yt-dlp", error := e1.take 150 },
         { method := "invidious", error := e2.take 150 },
         { method := "piped", error := e3.take 150 },
         { method := "cloudflare",
           error := if wc then e4.take 150 else cloudflare_not_configured_msg }]) ∧
    search_multi_fallback (.error s1) (.error s2) piped_responses limit =
      .error (503, ["yt-dlp: " ++ s1.take 100, "invidious: " ++ s2.take 100]) := by
  constructor
  · cases wc
    · rfl
    · simp [get_stream_multi_fallback]
  · unfold search_multi_fallback
    rw [search_multi_piped_none limit piped_responses hp]

/-- Witness for C2 at concrete failing providers (worker
unconfigured, one failing piped instance). -/
theorem multi_fallback_aggregate_amended_witness :
    get_stream_multi_fallback (.error "ea") (.error "eb") (.error "ec") (.error "ed")
        false =
      .error (503,
        [{ method := "yt-dlp", error := ("ea").take 150 },
         { method := "invidious", error := ("eb").take 150 },
         { method := "piped", error := ("ec").take 150 },
         { method := "cloudflare", error := cloudflare_not_configured_msg }]) ∧
    search_multi_fallback (.error "sa") (.error "sb") [.error "down"] 5 =
      .error (503, ["yt-dlp: " ++ ("sa").take 100, "invidious: " ++ ("sb").take 100]) := by
  have h := multi_fallback_aggregate_amended "ea" "eb" "ec" "ed" "sa" "sb" false
    [.error "down"] 5 (by decide)
  exact ⟨h.1, h.2⟩

end YtApi
